import Mathlib

/-!
Verification of the k8s-resource-cleanup-operator (src/k8s_cleanup_operator.py).

The Python source is shallowly embedded below:
* timestamps are `Int` seconds since the epoch (the code normalizes all
  timestamps to UTC before comparing, so a single integer timeline models them);
* the Kubernetes API is modelled by a `ClusterState` record of oracle
  functions returning `Except ApiError _`, mirroring the `ApiException`-based
  error handling of the code;
* Python sets of names are modelled as `List String` (only membership is ever
  consumed); `set.add` becomes an append;
* glob matching (`fnmatch.fnmatch`) is modelled by an executable matcher for
  the `*`, `?`, `[...]`, `[!...]` constructs of the Python standard library.
-/

/-- An error raised by a Kubernetes API call (models `ApiException`). -/
structure ApiError where
  status : Nat
deriving DecidableEq, Repr

/-- True when an API call result is a success (no `ApiException` raised). -/
def exceptIsOk {ε α : Type} : Except ε α → Bool
  | .ok _ => true
  | .error _ => false

/-! ## Pattern matcher: model of Python `fnmatch.fnmatch` (POSIX, case-sensitive) -/

/-- Scan a character-class body for its closing `]`; returns the class
characters and the remainder of the pattern, or `none` when `]` is missing
(in which case `fnmatch` treats `[` as a literal). -/
def findCloseBracket : List Char → Option (List Char × List Char)
  | [] => none
  | ']' :: rest => some ([], rest)
  | c :: rest =>
    match findCloseBracket rest with
    | none => none
    | some (cls, r) => some (c :: cls, r)

/-- Split the pattern after a `[` into (negated?, class characters, rest),
following `fnmatch`: a leading `!` negates, and a `]` in first position is a
literal member of the class. -/
def splitBracket (l : List Char) : Option (Bool × List Char × List Char) :=
  match l with
  | '!' :: ']' :: rest => (findCloseBracket rest).map (fun p => (true, ']' :: p.1, p.2))
  | '!' :: rest => (findCloseBracket rest).map (fun p => (true, p.1, p.2))
  | ']' :: rest => (findCloseBracket rest).map (fun p => (false, ']' :: p.1, p.2))
  | rest => (findCloseBracket rest).map (fun p => (false, p.1, p.2))

/-- Does a character belong to a character class (supports `a-z` ranges,
a trailing `-` is a literal)? -/
def classMatch : List Char → Char → Bool
  | [], _ => false
  | a :: '-' :: b :: rest, c =>
    (Nat.ble a.toNat c.toNat && Nat.ble c.toNat b.toNat) || classMatch rest c
  | a :: rest, c => (a == c) || classMatch rest c

/-- Fuelled core of the glob matcher.  Every step consumes at least one
character of the pattern or of the name, so `pattern.length + name.length + 1`
fuel always suffices. -/
def fnmatchFuel : Nat → List Char → List Char → Bool
  | 0, _, _ => false
  | _ + 1, [], [] => true
  | _ + 1, [], _ :: _ => false
  | f + 1, '*' :: ps, s =>
    fnmatchFuel f ps s ||
      (match s with
       | [] => false
       | _ :: s2 => fnmatchFuel f ('*' :: ps) s2)
  | f + 1, '?' :: ps, s =>
    (match s with
     | [] => false
     | _ :: s2 => fnmatchFuel f ps s2)
  | f + 1, '[' :: ps, s =>
    (match splitBracket ps with
     | some (neg, cls, rest) =>
       (match s with
        | [] => false
        | c :: s2 => (classMatch cls c != neg) && fnmatchFuel f rest s2)
     | none =>
       (match s with
        | '[' :: s2 => fnmatchFuel f ps s2
        | _ => false))
  | f + 1, c :: ps, s =>
    (match s with
     | c2 :: s2 => (c == c2) && fnmatchFuel f ps s2
     | _ => false)

/-- Model of Python `fnmatch.fnmatch(name, pattern)`. -/
def fnmatch (name pattern : String) : Bool :=
  fnmatchFuel (pattern.length + name.length + 1) pattern.data name.data

/-! ## Data model: the fields of the Kubernetes objects the code consumes -/

/-- A named reference to a Secret/ConfigMap/ServiceAccount (only `.name` is read). -/
structure KeyRef where
  name : String
deriving DecidableEq, Repr

/-- `V1EnvVarSource`: the `value_from` of an environment variable. -/
structure EnvVarSource where
  secret_key_ref : Option KeyRef
  config_map_key_ref : Option KeyRef
deriving DecidableEq, Repr

/-- `V1EnvVar`: only `value_from` is consumed. -/
structure EnvVarEntry where
  value_from : Option EnvVarSource
deriving DecidableEq, Repr

/-- `V1EnvFromSource`: a bulk env-from source. -/
structure EnvFromSource where
  secret_ref : Option KeyRef
  config_map_ref : Option KeyRef
deriving DecidableEq, Repr

/-- `V1Container` restricted to the consumed fields. -/
structure ContainerSpec where
  env : Option (List EnvVarEntry)
  env_from : Option (List EnvFromSource)
deriving DecidableEq, Repr

/-- One source of a projected volume. -/
structure ProjectedSource where
  secret : Option KeyRef
  config_map : Option KeyRef
deriving DecidableEq, Repr

/-- `V1ProjectedVolumeSource`: `sources` may be absent. -/
structure ProjectedVolume where
  sources : Option (List ProjectedSource)
deriving DecidableEq, Repr

/-- `V1SecretVolumeSource`: only `secret_name` is consumed. -/
structure SecretVolumeSource where
  secret_name : String
deriving DecidableEq, Repr

/-- `V1ConfigMapVolumeSource`: only `name` is consumed. -/
structure ConfigMapVolumeSource where
  name : String
deriving DecidableEq, Repr

/-- `V1Volume` restricted to the consumed fields. -/
structure VolumeSpec where
  secret : Option SecretVolumeSource
  config_map : Option ConfigMapVolumeSource
  projected : Option ProjectedVolume
deriving DecidableEq, Repr

/-- `V1ServiceAccount`: the two secret lists the code reads. -/
structure ServiceAccountObj where
  secrets : Option (List KeyRef)
  image_pull_secrets : Option (List KeyRef)
deriving DecidableEq, Repr

/-- A workload pod specification restricted to the fields the collector reads
(`pod_spec.namespace` is read by the source when resolving service accounts). -/
structure PodSpec where
  volumes : Option (List VolumeSpec)
  containers : Option (List ContainerSpec)
  init_containers : Option (List ContainerSpec)
  ephemeral_containers : Option (List ContainerSpec)
  image_pull_secrets : Option (List KeyRef)
  service_account_name : Option String
  pod_namespace : Option String
deriving DecidableEq, Repr

/-- A Secret as listed from the API: name, creation timestamp (UTC seconds)
and type. -/
structure SecretObj where
  name : String
  creation_timestamp : Int
  type : Option String
deriving DecidableEq, Repr

/-- A ConfigMap as listed from the API: name and creation timestamp (UTC seconds). -/
structure ConfigMapObj where
  name : String
  creation_timestamp : Int
deriving DecidableEq, Repr

/-- The cluster as seen through the API client: list/get/delete oracles,
each either succeeding or raising an `ApiException` (modelled as `Except`).
A workload item carries `Option PodSpec` because a pod template spec may be
absent.  Delete oracles describe the state at deletion time: a resource that
disappeared between classification and deletion answers with a 404 error. -/
structure ClusterState where
  pods : String → Except ApiError (List (Option PodSpec))
  deployments : String → Except ApiError (List (Option PodSpec))
  daemon_sets : String → Except ApiError (List (Option PodSpec))
  stateful_sets : String → Except ApiError (List (Option PodSpec))
  service_accounts : String → String → Except ApiError ServiceAccountObj
  secrets : String → Except ApiError (List SecretObj)
  configmaps : String → Except ApiError (List ConfigMapObj)
  delete_secret : String → String → Except ApiError Unit
  delete_config_map : String → String → Except ApiError Unit

/-- The operator configuration (the typed view of the `CONFIG` dict). -/
structure Config where
  namespaces : List String
  cleanup_interval : Int
  unused_threshold_hours : Int
  dry_run : Bool
  exclude_patterns : List String
deriving DecidableEq, Repr

/-- The built-in defaults of the `CONFIG` dict. -/
def default_config : Config :=
  { namespaces := ["default"]
    cleanup_interval := 3600
    unused_threshold_hours := 1
    dry_run := false
    exclude_patterns := ["kube-*", "default-token-*"] }

/-- The per-namespace reference set `{'secrets': set(), 'configmaps': set()}`.
Python sets are modelled as lists; only membership is consumed. -/
structure References where
  secrets : List String
  configmaps : List String
deriving DecidableEq, Repr

/-- `references['secrets'].add name` (set insertion modelled as an append). -/
def addSecretRef (r : References) (n : String) : References :=
  { r with secrets := r.secrets ++ [n] }

/-- `references['configmaps'].add name` (set insertion modelled as an append). -/
def addConfigmapRef (r : References) (n : String) : References :=
  { r with configmaps := r.configmaps ++ [n] }

/-- Python `x or 'default'` on an optional string (`None` and `''` are falsy). -/
def pyOrDefault (s : Option String) (d : String) : String :=
  match s with
  | none => d
  | some v => if v == "" then d else v

/-! ## Reference Collector -/

/-- `ResourceCleanup._extract_references_from_pod_spec`: walk one pod spec and
append every referenced Secret/ConfigMap name (volumes, projected sources,
env value-from, env-from, image-pull secrets, service-account secrets).
A failing service-account lookup contributes nothing (`except ApiException:
pass`). -/
def extract_references_from_pod_spec (st : ClusterState) (pod_spec : Option PodSpec)
    (references : References) : References :=
  match pod_spec with
  | none => references
  | some ps =>
    let references := (ps.volumes.getD []).foldl (fun r vol =>
      let r := match vol.secret with
        | some sv => addSecretRef r sv.secret_name
        | none => r
      let r := match vol.config_map with
        | some cmv => addConfigmapRef r cmv.name
        | none => r
      match vol.projected with
      | some proj => (proj.sources.getD []).foldl (fun r src =>
          let r := match src.secret with
            | some sp => addSecretRef r sp.name
            | none => r
          match src.config_map with
          | some cp => addConfigmapRef r cp.name
          | none => r) r
      | none => r) references
    let all_containers :=
      ps.containers.getD [] ++ ps.init_containers.getD [] ++ ps.ephemeral_containers.getD []
    let references := all_containers.foldl (fun r container =>
      let r := (container.env.getD []).foldl (fun r env_var =>
        match env_var.value_from with
        | none => r
        | some vf =>
          let r := match vf.secret_key_ref with
            | some kr => addSecretRef r kr.name
            | none => r
          match vf.config_map_key_ref with
          | some kr => addConfigmapRef r kr.name
          | none => r) r
      (container.env_from.getD []).foldl (fun r ef =>
        let r := match ef.secret_ref with
          | some sr => addSecretRef r sr.name
          | none => r
        match ef.config_map_ref with
        | some cr => addConfigmapRef r cr.name
        | none => r) r) references
    let references := (ps.image_pull_secrets.getD []).foldl
      (fun r s => addSecretRef r s.name) references
    match ps.service_account_name with
    | none => references
    | some sa_name =>
      if sa_name == "" then references
      else
        match st.service_accounts (pyOrDefault ps.pod_namespace "default") sa_name with
        | .error _ => references
        | .ok sa =>
          let references := (sa.secrets.getD []).foldl
            (fun r s => addSecretRef r s.name) references
          (sa.image_pull_secrets.getD []).foldl
            (fun r s => addSecretRef r s.name) references

/-- `ResourceCleanup.get_resource_references`: scan pods, deployments,
daemonsets and statefulsets in order inside one `try` block; an
`ApiException` from any listing returns the references accumulated so far
(subsequent kinds are not scanned). -/
def get_resource_references (st : ClusterState) (namespc : String) : References :=
  let references : References := { secrets := [], configmaps := [] }
  match st.pods namespc with
  | .error _ => references
  | .ok pods =>
  let references := pods.foldl
    (fun r p => extract_references_from_pod_spec st p r) references
  match st.deployments namespc with
  | .error _ => references
  | .ok deployments =>
  let references := deployments.foldl (fun r d =>
    match d with
    | some spec => extract_references_from_pod_spec st (some spec) r
    | none => r) references
  match st.daemon_sets namespc with
  | .error _ => references
  | .ok daemonsets =>
  let references := daemonsets.foldl (fun r d =>
    match d with
    | some spec => extract_references_from_pod_spec st (some spec) r
    | none => r) references
  match st.stateful_sets namespc with
  | .error _ => references
  | .ok statefulsets =>
  statefulsets.foldl (fun r d =>
    match d with
    | some spec => extract_references_from_pod_spec st (some spec) r
    | none => r) references

/-! ## Exclusion Filter -/

/-- Python `s.startswith(p)` (structural, so that it evaluates in the kernel). -/
def strStartsWith (s p : String) : Bool :=
  p.data.isPrefixOf s.data

/-- Python `s.endswith(p)` (structural, so that it evaluates in the kernel). -/
def strEndsWith (s p : String) : Bool :=
  p.data.reverse.isPrefixOf s.data.reverse

/-- `ResourceCleanup.should_exclude_resource`: glob patterns first, then the
secret-specific name conventions. -/
def should_exclude_resource (cfg : Config) (name : String) (resource_type : String) : Bool :=
  if cfg.exclude_patterns.any (fun pattern => fnmatch name pattern) then true
  else if resource_type == "secret" then
    strStartsWith name "default-token-" || strEndsWith name "-token"
  else false

/-- The three built-in system Secret types skipped by the classifier. -/
def isSystemSecretType (t : Option String) : Bool :=
  t == some "kubernetes.io/service-account-token" ||
    t == some "kubernetes.io/dockercfg" ||
    t == some "kubernetes.io/dockerconfigjson"

/-! ## Staleness Classifier -/

/-- The candidate lists `{'secrets': [...], 'configmaps': [...]}`. -/
structure UnusedResources where
  secrets : List String
  configmaps : List String
deriving DecidableEq, Repr

/-- The body of the secret loop of `get_unused_resources`: skip when excluded,
skip system types, append when unreferenced and older than the cutoff. -/
def secret_step (cfg : Config) (references : References) (cutoff_time : Int)
    (acc : List String) (secret : SecretObj) : List String :=
  if should_exclude_resource cfg secret.name "secret" then acc
  else if isSystemSecretType secret.type then acc
  else if !references.secrets.contains secret.name &&
      decide (secret.creation_timestamp < cutoff_time) then
    acc ++ [secret.name]
  else acc

/-- The body of the configmap loop of `get_unused_resources`. -/
def configmap_step (cfg : Config) (references : References) (cutoff_time : Int)
    (acc : List String) (configmap : ConfigMapObj) : List String :=
  if should_exclude_resource cfg configmap.name "configmap" then acc
  else if !references.configmaps.contains configmap.name &&
      decide (configmap.creation_timestamp < cutoff_time) then
    acc ++ [configmap.name]
  else acc

/-- `ResourceCleanup.get_unused_resources`: the cutoff is computed once per
call from `now` (`datetime.now(timezone.utc) - timedelta(hours=threshold)`),
then secrets and configmaps are classified in one `try` block: an
`ApiException` while listing returns the lists accumulated so far. -/
def get_unused_resources (cfg : Config) (st : ClusterState) (now : Int)
    (namespc : String) : UnusedResources :=
  let cutoff_time : Int := now - cfg.unused_threshold_hours * 3600
  let references := get_resource_references st namespc
  match st.secrets namespc with
  | .error _ => { secrets := [], configmaps := [] }
  | .ok secretItems =>
    let unusedSecrets := secretItems.foldl (secret_step cfg references cutoff_time) []
    match st.configmaps namespc with
    | .error _ => { secrets := unusedSecrets, configmaps := [] }
    | .ok configmapItems =>
      { secrets := unusedSecrets
        configmaps := configmapItems.foldl (configmap_step cfg references cutoff_time) [] }

/-! ## Cleanup Executor -/

/-- A mutating API call issued by the executor. -/
inductive DeleteCall where
  | secret (namespc name : String)
  | configmap (namespc name : String)
deriving DecidableEq, Repr

/-- The per-namespace result `{'secrets_deleted': n, 'configmaps_deleted': m}`. -/
structure CleanupResult where
  secrets_deleted : Nat
  configmaps_deleted : Nat
deriving DecidableEq, Repr

/-- One deletion loop of `cleanup_namespace`: in dry-run the counter is
incremented without any API call; live mode issues the delete call and
increments only when it did not raise (an `ApiException` is caught and the
loop continues with the next candidate). -/
def delete_loop (dry : Bool) (del : String → Except ApiError Unit)
    (mk : String → DeleteCall) (names : List String) : Nat × List DeleteCall :=
  names.foldl (fun acc name =>
    if dry then (acc.1 + 1, acc.2)
    else
      match del name with
      | .ok _ => (acc.1 + 1, acc.2 ++ [mk name])
      | .error _ => (acc.1, acc.2 ++ [mk name])) (0, [])

/-- `ResourceCleanup.cleanup_namespace`: classify, then run the secret and
configmap deletion loops; returns the counts and the list of mutating calls
issued. -/
def cleanup_namespace (cfg : Config) (st : ClusterState) (now : Int)
    (namespc : String) : CleanupResult × List DeleteCall :=
  let unused_resources := get_unused_resources cfg st now namespc
  let s := delete_loop cfg.dry_run (st.delete_secret namespc)
    (DeleteCall.secret namespc) unused_resources.secrets
  let c := delete_loop cfg.dry_run (st.delete_config_map namespc)
    (DeleteCall.configmap namespc) unused_resources.configmaps
  ({ secrets_deleted := s.1, configmaps_deleted := c.1 }, s.2 ++ c.2)

/-- `perform_cleanup`: iterate the configured namespaces, accumulating the
totals.  `datetime.now` is re-read on every `get_unused_resources` call, so
the wall clock is modelled as `nows`, indexed by the position of the
namespace in the configured list.  The per-namespace `except Exception`
of the source catches exceptions that the total model cannot raise. -/
def perform_cleanup (cfg : Config) (st : ClusterState) (nows : Nat → Int) :
    CleanupResult × List DeleteCall :=
  cfg.namespaces.enum.foldl (fun acc p =>
    let r := cleanup_namespace cfg st (nows p.1) p.2
    ({ secrets_deleted := acc.1.secrets_deleted + r.1.secrets_deleted
       configmaps_deleted := acc.1.configmaps_deleted + r.1.configmaps_deleted },
     acc.2 ++ r.2))
    ({ secrets_deleted := 0, configmaps_deleted := 0 }, [])

/-! ## Proof infrastructure: characterizations of the loops -/

/-- The append condition of the secret loop of `get_unused_resources`,
collected into one boolean. -/
def secret_adds (cfg : Config) (references : References) (cutoff_time : Int)
    (secret : SecretObj) : Bool :=
  !should_exclude_resource cfg secret.name "secret" &&
    !isSystemSecretType secret.type &&
    (!references.secrets.contains secret.name &&
      decide (secret.creation_timestamp < cutoff_time))

/-- The append condition of the configmap loop of `get_unused_resources`. -/
def configmap_adds (cfg : Config) (references : References) (cutoff_time : Int)
    (configmap : ConfigMapObj) : Bool :=
  !should_exclude_resource cfg configmap.name "configmap" &&
    (!references.configmaps.contains configmap.name &&
      decide (configmap.creation_timestamp < cutoff_time))

lemma secret_step_eq (cfg : Config) (refs : References) (cut : Int)
    (acc : List String) (s : SecretObj) :
    secret_step cfg refs cut acc s =
      if secret_adds cfg refs cut s = true then acc ++ [s.name] else acc := by
  unfold secret_step secret_adds
  cases h1 : should_exclude_resource cfg s.name "secret" <;>
    cases h2 : isSystemSecretType s.type <;>
    cases h3 : (!refs.secrets.contains s.name && decide (s.creation_timestamp < cut)) <;>
    simp [h1, h2, h3]

lemma configmap_step_eq (cfg : Config) (refs : References) (cut : Int)
    (acc : List String) (c : ConfigMapObj) :
    configmap_step cfg refs cut acc c =
      if configmap_adds cfg refs cut c = true then acc ++ [c.name] else acc := by
  unfold configmap_step configmap_adds
  cases h1 : should_exclude_resource cfg c.name "configmap" <;>
    cases h3 : (!refs.configmaps.contains c.name && decide (c.creation_timestamp < cut)) <;>
    simp [h1, h3]

lemma foldl_secret_step_eq (cfg : Config) (refs : References) (cut : Int)
    (l : List SecretObj) :
    ∀ acc : List String, l.foldl (secret_step cfg refs cut) acc =
      acc ++ (l.filter (secret_adds cfg refs cut)).map SecretObj.name := by
  induction l with
  | nil => intro acc; simp
  | cons s t ih =>
    intro acc
    rw [List.foldl_cons, secret_step_eq, ih]
    by_cases h : secret_adds cfg refs cut s = true
    · simp [h, List.filter_cons]
    · simp [h, List.filter_cons]

lemma foldl_configmap_step_eq (cfg : Config) (refs : References) (cut : Int)
    (l : List ConfigMapObj) :
    ∀ acc : List String, l.foldl (configmap_step cfg refs cut) acc =
      acc ++ (l.filter (configmap_adds cfg refs cut)).map ConfigMapObj.name := by
  induction l with
  | nil => intro acc; simp
  | cons c t ih =>
    intro acc
    rw [List.foldl_cons, configmap_step_eq, ih]
    by_cases h : configmap_adds cfg refs cut c = true
    · simp [h, List.filter_cons]
    · simp [h, List.filter_cons]

/-- Membership in the secret candidate list, characterized. -/
lemma mem_unused_secrets_iff (cfg : Config) (st : ClusterState) (now : Int)
    (ns : String) (n : String) :
    n ∈ (get_unused_resources cfg st now ns).secrets ↔
      ∃ items, st.secrets ns = .ok items ∧
        ∃ s, s ∈ items ∧ s.name = n ∧
          secret_adds cfg (get_resource_references st ns)
            (now - cfg.unused_threshold_hours * 3600) s = true := by
  unfold get_unused_resources
  cases hs : st.secrets ns with
  | error e => simp [hs]
  | ok items =>
    cases hc : st.configmaps ns with
    | error e =>
      simp only [foldl_secret_step_eq, List.nil_append, List.mem_map, List.mem_filter]
      constructor
      · rintro ⟨s, ⟨hmem, hadds⟩, rfl⟩
        exact ⟨items, rfl, s, hmem, rfl, hadds⟩
      · rintro ⟨items2, heq, s, hmem, rfl, hadds⟩
        obtain rfl : items = items2 := (Except.ok.injEq _ _).mp heq
        exact ⟨s, ⟨hmem, hadds⟩, rfl⟩
    | ok cms =>
      simp only [foldl_secret_step_eq, List.nil_append, List.mem_map, List.mem_filter]
      constructor
      · rintro ⟨s, ⟨hmem, hadds⟩, rfl⟩
        exact ⟨items, rfl, s, hmem, rfl, hadds⟩
      · rintro ⟨items2, heq, s, hmem, rfl, hadds⟩
        obtain rfl : items = items2 := (Except.ok.injEq _ _).mp heq
        exact ⟨s, ⟨hmem, hadds⟩, rfl⟩

/-- Membership in the configmap candidate list, characterized. -/
lemma mem_unused_configmaps_iff (cfg : Config) (st : ClusterState) (now : Int)
    (ns : String) (n : String) :
    n ∈ (get_unused_resources cfg st now ns).configmaps ↔
      (∃ items, st.secrets ns = .ok items) ∧
        ∃ cms, st.configmaps ns = .ok cms ∧
          ∃ c, c ∈ cms ∧ c.name = n ∧
            configmap_adds cfg (get_resource_references st ns)
              (now - cfg.unused_threshold_hours * 3600) c = true := by
  unfold get_unused_resources
  cases hs : st.secrets ns with
  | error e => simp [hs]
  | ok items =>
    cases hc : st.configmaps ns with
    | error e =>
      simp only []
      constructor
      · intro h; exact absurd h (List.not_mem_nil n)
      · rintro ⟨-, cms, heq, -⟩
        exact absurd heq (by simp)
    | ok cms =>
      simp only [foldl_configmap_step_eq, List.nil_append, List.mem_map, List.mem_filter]
      constructor
      · rintro ⟨c, ⟨hmem, hadds⟩, rfl⟩
        exact ⟨⟨items, rfl⟩, cms, rfl, c, hmem, rfl, hadds⟩
      · rintro ⟨-, cms2, heq, c, hmem, rfl, hadds⟩
        obtain rfl : cms = cms2 := (Except.ok.injEq _ _).mp heq
        exact ⟨c, ⟨hmem, hadds⟩, rfl⟩

/-- The deletion loop, characterized: in dry-run it counts every candidate and
issues no call; live it issues one call per candidate and counts the
successful ones. -/
lemma delete_loop_eq (dry : Bool) (del : String → Except ApiError Unit)
    (mk : String → DeleteCall) (names : List String) :
    delete_loop dry del mk names =
      ((if dry then names.length else names.countP (fun n => exceptIsOk (del n))),
       (if dry then [] else names.map mk)) := by
  unfold delete_loop
  cases dry with
  | true =>
    simp only [if_true, reduceIte]
    suffices h : ∀ (l : List String) (k : Nat) (cs : List DeleteCall),
        l.foldl (fun acc _ => (acc.1 + 1, acc.2)) (k, cs) = (k + l.length, cs) by
      rw [h]; simp
    intro l
    induction l with
    | nil => intro k cs; simp
    | cons a t ih =>
      intro k cs
      rw [List.foldl_cons, ih, Prod.mk.injEq]
      exact ⟨by simp only [List.length_cons]; omega, rfl⟩
  | false =>
    simp only [Bool.false_eq_true, reduceIte]
    suffices h : ∀ (l : List String) (k : Nat) (cs : List DeleteCall),
        l.foldl (fun acc name =>
          match del name with
          | .ok _ => (acc.1 + 1, acc.2 ++ [mk name])
          | .error _ => (acc.1, acc.2 ++ [mk name])) (k, cs) =
        (k + l.countP (fun n => exceptIsOk (del n)), cs ++ l.map mk) by
      rw [h]; simp
    intro l
    induction l with
    | nil => intro k cs; simp
    | cons a t ih =>
      intro k cs
      rw [List.foldl_cons]
      cases hda : del a with
      | ok v =>
        simp only [hda]
        rw [ih]
        simp only [List.countP_cons, List.map_cons, exceptIsOk, hda]
        rw [Prod.mk.injEq]
        exact ⟨by simp; omega, by simp⟩
      | error e =>
        simp only [hda]
        rw [ih]
        simp only [List.countP_cons, List.map_cons, exceptIsOk, hda]
        rw [Prod.mk.injEq]
        exact ⟨by simp, by simp⟩

/-! ## Claims C1 - C5 -/

/-- C1: for every namespace and every resource whose name appears in that
namespace's collected reference set (via volumes, projected-volume sources,
env value-from, env-from, image-pull secrets, or service-account secrets —
everything `get_resource_references` collects), the resource is never in the
candidate lists returned by the staleness classifier, regardless of its age. -/
theorem C1_referenced_never_candidate (cfg : Config) (st : ClusterState)
    (now : Int) (ns n : String) :
    (n ∈ (get_resource_references st ns).secrets →
      n ∉ (get_unused_resources cfg st now ns).secrets) ∧
    (n ∈ (get_resource_references st ns).configmaps →
      n ∉ (get_unused_resources cfg st now ns).configmaps) := by
  constructor
  · intro href hmem
    obtain ⟨items, -, s, -, rfl, hadds⟩ := (mem_unused_secrets_iff cfg st now ns n).mp hmem
    simp only [secret_adds, List.contains, Bool.and_eq_true, Bool.not_eq_true'] at hadds
    obtain ⟨⟨-, -⟩, hnc, -⟩ := hadds
    rw [List.elem_iff.mpr href] at hnc
    exact Bool.true_eq_false ▸ hnc
  · intro href hmem
    obtain ⟨-, cms, -, c, -, rfl, hadds⟩ :=
      (mem_unused_configmaps_iff cfg st now ns n).mp hmem
    simp only [configmap_adds, List.contains, Bool.and_eq_true, Bool.not_eq_true'] at hadds
    obtain ⟨-, hnc, -⟩ := hadds
    rw [List.elem_iff.mpr href] at hnc
    exact Bool.true_eq_false ▸ hnc

/-- An env value-from source naming secret `used-secret`. -/
def c1_env_source : EnvVarSource :=
  { secret_key_ref := some { name := "used-secret" }, config_map_key_ref := none }

/-- A container with one env value-from variable. -/
def c1_container : ContainerSpec :=
  { env := some [{ value_from := some c1_env_source }], env_from := none }

/-- A volume mounting configmap `used-cm`. -/
def c1_volume : VolumeSpec :=
  { secret := none, config_map := some { name := "used-cm" }, projected := none }

/-- A pod spec referencing secret `used-secret` via env value-from and
configmap `used-cm` via a volume. -/
def c1_pod_spec : PodSpec :=
  { volumes := some [c1_volume]
    containers := some [c1_container]
    init_containers := none
    ephemeral_containers := none
    image_pull_secrets := none
    service_account_name := none
    pod_namespace := none }

/-- A cluster with one pod referencing a secret via env value-from and a
configmap via a volume; both resources are old. -/
def c1_state : ClusterState :=
  { pods := fun _ => .ok [some c1_pod_spec]
    deployments := fun _ => .ok []
    daemon_sets := fun _ => .ok []
    stateful_sets := fun _ => .ok []
    service_accounts := fun _ _ => .error { status := 404 }
    secrets := fun _ => .ok [{ name := "used-secret", creation_timestamp := 0, type := none }]
    configmaps := fun _ => .ok [{ name := "used-cm", creation_timestamp := 0 }]
    delete_secret := fun _ _ => .ok ()
    delete_config_map := fun _ _ => .ok () }

/-- Witness for C1: the referenced secret and configmap are not candidates
even though they are far older than the threshold. -/
theorem C1_witness :
    ("used-secret" ∈ (get_resource_references c1_state "default").secrets ∧
      "used-secret" ∉ (get_unused_resources default_config c1_state 999999 "default").secrets) ∧
    ("used-cm" ∈ (get_resource_references c1_state "default").configmaps ∧
      "used-cm" ∉ (get_unused_resources default_config c1_state 999999 "default").configmaps) :=
  ⟨⟨by decide,
    (C1_referenced_never_candidate default_config c1_state 999999 "default" "used-secret").1
      (by decide)⟩,
   ⟨by decide,
    (C1_referenced_never_candidate default_config c1_state 999999 "default" "used-cm").2
      (by decide)⟩⟩

/-- C2: a resource with creation timestamp `t` is never a deletion candidate
whenever `now - t < threshold` hours, for any reference or exclusion status. -/
theorem C2_young_never_candidate (cfg : Config) (st : ClusterState) (now : Int)
    (ns : String) :
    (∀ items s, st.secrets ns = .ok items → (items.map SecretObj.name).Nodup →
      s ∈ items → now - s.creation_timestamp < cfg.unused_threshold_hours * 3600 →
      s.name ∉ (get_unused_resources cfg st now ns).secrets) ∧
    (∀ items c, st.configmaps ns = .ok items → (items.map ConfigMapObj.name).Nodup →
      c ∈ items → now - c.creation_timestamp < cfg.unused_threshold_hours * 3600 →
      c.name ∉ (get_unused_resources cfg st now ns).configmaps) := by
  constructor
  · intro items s hs hnd hmem hyoung hcand
    obtain ⟨items2, hs2, s2, hmem2, hname, hadds⟩ :=
      (mem_unused_secrets_iff cfg st now ns s.name).mp hcand
    rw [hs] at hs2
    obtain rfl : items = items2 := (Except.ok.injEq _ _).mp hs2
    obtain rfl : s2 = s := List.inj_on_of_nodup_map hnd hmem2 hmem hname
    simp only [secret_adds, Bool.and_eq_true, decide_eq_true_eq] at hadds
    have hlt := hadds.2.2
    omega
  · intro items c hs hnd hmem hyoung hcand
    obtain ⟨-, cms2, hc2, c2, hmem2, hname, hadds⟩ :=
      (mem_unused_configmaps_iff cfg st now ns c.name).mp hcand
    rw [hs] at hc2
    obtain rfl : items = cms2 := (Except.ok.injEq _ _).mp hc2
    obtain rfl : c2 = c := List.inj_on_of_nodup_map hnd hmem2 hmem hname
    simp only [configmap_adds, Bool.and_eq_true, decide_eq_true_eq] at hadds
    have hlt := hadds.2.2
    omega

/-- A cluster with one fresh unreferenced secret and configmap. -/
def c2_state : ClusterState :=
  { pods := fun _ => .ok []
    deployments := fun _ => .ok []
    daemon_sets := fun _ => .ok []
    stateful_sets := fun _ => .ok []
    service_accounts := fun _ _ => .error { status := 404 }
    secrets := fun _ => .ok [{ name := "fresh-secret", creation_timestamp := 0, type := none }]
    configmaps := fun _ => .ok [{ name := "fresh-cm", creation_timestamp := 0 }]
    delete_secret := fun _ _ => .ok ()
    delete_config_map := fun _ _ => .ok () }

/-- Witness for C2: at 1800s of age against a 1h threshold, the unreferenced
resources are not candidates. -/
theorem C2_witness :
    "fresh-secret" ∉ (get_unused_resources default_config c2_state 1800 "default").secrets ∧
    "fresh-cm" ∉ (get_unused_resources default_config c2_state 1800 "default").configmaps :=
  ⟨(C2_young_never_candidate default_config c2_state 1800 "default").1
      [{ name := "fresh-secret", creation_timestamp := 0, type := none }]
      { name := "fresh-secret", creation_timestamp := 0, type := none }
      rfl (by decide) (by decide) (by decide),
   (C2_young_never_candidate default_config c2_state 1800 "default").2
      [{ name := "fresh-cm", creation_timestamp := 0 }]
      { name := "fresh-cm", creation_timestamp := 0 }
      rfl (by decide) (by decide) (by decide)⟩

lemma should_exclude_of_glob (cfg : Config) (n rt : String)
    (h : cfg.exclude_patterns.any (fun pattern => fnmatch n pattern) = true) :
    should_exclude_resource cfg n rt = true := by
  unfold should_exclude_resource
  simp [h]

lemma should_exclude_of_token_name (cfg : Config) (n : String)
    (h : (strStartsWith n "default-token-" || strEndsWith n "-token") = true) :
    should_exclude_resource cfg n "secret" = true := by
  unfold should_exclude_resource
  cases hg : cfg.exclude_patterns.any (fun pattern => fnmatch n pattern) <;> simp [hg, h]

/-- C3: a resource matching a configured exclusion glob, a Secret following
the `default-token-`/`-token` name conventions, and a Secret of a built-in
system type are never deletion candidates, even if old and unreferenced;
and the exclusion short-circuits the pipeline: the classification step
returns its accumulator unchanged for every creation timestamp, so the age
of an excluded resource is never evaluated. -/
theorem C3_excluded_never_candidate (cfg : Config) (st : ClusterState)
    (now : Int) (ns : String) :
    (∀ n, cfg.exclude_patterns.any (fun pattern => fnmatch n pattern) = true →
      n ∉ (get_unused_resources cfg st now ns).secrets ∧
      n ∉ (get_unused_resources cfg st now ns).configmaps) ∧
    (∀ n, (strStartsWith n "default-token-" || strEndsWith n "-token") = true →
      n ∉ (get_unused_resources cfg st now ns).secrets) ∧
    (∀ items s, st.secrets ns = .ok items → (items.map SecretObj.name).Nodup →
      s ∈ items → isSystemSecretType s.type = true →
      s.name ∉ (get_unused_resources cfg st now ns).secrets) ∧
    (∀ (references : References) (cutoff : Int) (acc : List String)
        (s : SecretObj) (t : Int),
      should_exclude_resource cfg s.name "secret" = true ∨
        isSystemSecretType s.type = true →
      secret_step cfg references cutoff acc { s with creation_timestamp := t } = acc) ∧
    (∀ (references : References) (cutoff : Int) (acc : List String)
        (c : ConfigMapObj) (t : Int),
      should_exclude_resource cfg c.name "configmap" = true →
      configmap_step cfg references cutoff acc { c with creation_timestamp := t } = acc) := by
  refine ⟨?_, ?_, ?_, ?_, ?_⟩
  · intro n hglob
    constructor
    · intro hmem
      obtain ⟨items, -, s, -, rfl, hadds⟩ :=
        (mem_unused_secrets_iff cfg st now ns n).mp hmem
      simp only [secret_adds, Bool.and_eq_true, Bool.not_eq_true'] at hadds
      exact absurd (should_exclude_of_glob cfg s.name "secret" hglob)
        (by simp [hadds.1.1])
    · intro hmem
      obtain ⟨-, cms, -, c, -, rfl, hadds⟩ :=
        (mem_unused_configmaps_iff cfg st now ns n).mp hmem
      simp only [configmap_adds, Bool.and_eq_true, Bool.not_eq_true'] at hadds
      exact absurd (should_exclude_of_glob cfg c.name "configmap" hglob)
        (by simp [hadds.1])
  · intro n hconv hmem
    obtain ⟨items, -, s, -, rfl, hadds⟩ :=
      (mem_unused_secrets_iff cfg st now ns n).mp hmem
    simp only [secret_adds, Bool.and_eq_true, Bool.not_eq_true'] at hadds
    exact absurd (should_exclude_of_token_name cfg s.name hconv)
      (by simp [hadds.1.1])
  · intro items s hs hnd hmem hsys hcand
    obtain ⟨items2, hs2, s2, hmem2, hname, hadds⟩ :=
      (mem_unused_secrets_iff cfg st now ns s.name).mp hcand
    rw [hs] at hs2
    obtain rfl : items = items2 := (Except.ok.injEq _ _).mp hs2
    obtain rfl : s2 = s := List.inj_on_of_nodup_map hnd hmem2 hmem hname
    simp only [secret_adds, Bool.and_eq_true, Bool.not_eq_true'] at hadds
    exact absurd hsys (by simp [hadds.1.2])
  · intro references cutoff acc s t h
    rcases h with h | h
    · unfold secret_step
      simp [h]
    · unfold secret_step
      by_cases h1 : should_exclude_resource cfg s.name "secret" = true
      · simp [h1]
      · simp [h1, h]
  · intro references cutoff acc c t h
    unfold configmap_step
    simp [h]

/-- A cluster holding three old protected resources: a configmap matching the
default `kube-*` glob, a secret ending in `-token`, and a secret of the
service-account-token system type. -/
def c3_state : ClusterState :=
  { pods := fun _ => .ok []
    deployments := fun _ => .ok []
    daemon_sets := fun _ => .ok []
    stateful_sets := fun _ => .ok []
    service_accounts := fun _ _ => .error { status := 404 }
    secrets := fun _ => .ok [
      { name := "app-token", creation_timestamp := 0, type := none },
      { name := "sa-secret", creation_timestamp := 0,
        type := some "kubernetes.io/service-account-token" }]
    configmaps := fun _ => .ok [{ name := "kube-root-ca.crt", creation_timestamp := 0 }]
    delete_secret := fun _ _ => .ok ()
    delete_config_map := fun _ _ => .ok () }

/-- Witness for C3: none of the three protected resources is a candidate
despite being old and unreferenced, and the classification step ignores an
excluded resource for an arbitrary timestamp. -/
theorem C3_witness :
    "kube-root-ca.crt" ∉
      (get_unused_resources default_config c3_state 999999 "default").configmaps ∧
    "app-token" ∉ (get_unused_resources default_config c3_state 999999 "default").secrets ∧
    "sa-secret" ∉ (get_unused_resources default_config c3_state 999999 "default").secrets ∧
    secret_step default_config { secrets := [], configmaps := [] } 999999 ["keep"]
      { name := "app-token", creation_timestamp := -5, type := none } = ["keep"] :=
  ⟨((C3_excluded_never_candidate default_config c3_state 999999 "default").1
      "kube-root-ca.crt" (by decide)).2,
   (C3_excluded_never_candidate default_config c3_state 999999 "default").2.1
      "app-token" (by decide),
   (C3_excluded_never_candidate default_config c3_state 999999 "default").2.2.1
      [{ name := "app-token", creation_timestamp := 0, type := none },
       { name := "sa-secret", creation_timestamp := 0,
         type := some "kubernetes.io/service-account-token" }]
      { name := "sa-secret", creation_timestamp := 0,
        type := some "kubernetes.io/service-account-token" }
      rfl (by decide) (by decide) (by decide),
   (C3_excluded_never_candidate default_config c3_state 999999 "default").2.2.2.1
      { secrets := [], configmaps := [] } 999999 ["keep"]
      { name := "app-token", creation_timestamp := 0, type := none } (-5)
      (Or.inl (by decide))⟩

/-- C4 (amended): dry-run and live mode compute identical candidate sets and
dry-run issues zero mutating calls; the returned counts agree whenever every
delete attempt on a candidate succeeds.  When a delete raises, live mode
omits that resource from its count while dry-run still counts it (see the
counterexample). -/
theorem C4_dry_run_refinement (cfg : Config) (st : ClusterState) (now : Int)
    (ns : String) :
    get_unused_resources { cfg with dry_run := true } st now ns =
      get_unused_resources { cfg with dry_run := false } st now ns ∧
    (cleanup_namespace { cfg with dry_run := true } st now ns).2 = [] ∧
    ((∀ n ∈ (get_unused_resources cfg st now ns).secrets,
        exceptIsOk (st.delete_secret ns n) = true) →
      (∀ n ∈ (get_unused_resources cfg st now ns).configmaps,
        exceptIsOk (st.delete_config_map ns n) = true) →
      (cleanup_namespace { cfg with dry_run := true } st now ns).1 =
        (cleanup_namespace { cfg with dry_run := false } st now ns).1) := by
  refine ⟨rfl, ?_, ?_⟩
  · simp [cleanup_namespace, delete_loop_eq]
  · intro hsec hcm
    simp only [cleanup_namespace, delete_loop_eq]
    rw [show get_unused_resources { cfg with dry_run := true } st now ns =
        get_unused_resources cfg st now ns from rfl,
      show get_unused_resources { cfg with dry_run := false } st now ns =
        get_unused_resources cfg st now ns from rfl]
    simp only [CleanupResult.mk.injEq]
    rw [List.countP_eq_length.mpr hsec, List.countP_eq_length.mpr hcm]
    simp

/-- A cluster with one old orphaned secret whose deletion raises. -/
def c4_fail_state : ClusterState :=
  { pods := fun _ => .ok []
    deployments := fun _ => .ok []
    daemon_sets := fun _ => .ok []
    stateful_sets := fun _ => .ok []
    service_accounts := fun _ _ => .error { status := 404 }
    secrets := fun _ => .ok [{ name := "orphan-a", creation_timestamp := 0, type := none }]
    configmaps := fun _ => .ok []
    delete_secret := fun _ _ => .error { status := 500 }
    delete_config_map := fun _ _ => .ok () }

/-- Counterexample to C4 as stated: on the same input cluster state, dry-run
reports one deleted secret while live mode (whose delete call raises) reports
zero, so the returned counts are not identical. -/
theorem C4_counterexample :
    (cleanup_namespace { default_config with dry_run := true } c4_fail_state 7200 "default").1 =
        { secrets_deleted := 1, configmaps_deleted := 0 } ∧
    (cleanup_namespace { default_config with dry_run := false } c4_fail_state 7200 "default").1 =
        { secrets_deleted := 0, configmaps_deleted := 0 } ∧
    (cleanup_namespace { default_config with dry_run := true } c4_fail_state 7200 "default").1 ≠
      (cleanup_namespace { default_config with dry_run := false } c4_fail_state 7200 "default").1 := by
  decide

/-- A cluster with one old orphaned secret whose deletion succeeds. -/
def c4_ok_state : ClusterState :=
  { pods := fun _ => .ok []
    deployments := fun _ => .ok []
    daemon_sets := fun _ => .ok []
    stateful_sets := fun _ => .ok []
    service_accounts := fun _ _ => .error { status := 404 }
    secrets := fun _ => .ok [{ name := "orphan-b", creation_timestamp := 0, type := none }]
    configmaps := fun _ => .ok []
    delete_secret := fun _ _ => .ok ()
    delete_config_map := fun _ _ => .ok () }

/-- Witness for C4 (amended): with all deletes succeeding, dry-run and live
counts agree. -/
theorem C4_witness :
    (cleanup_namespace { default_config with dry_run := true } c4_ok_state 7200 "default").1 =
      (cleanup_namespace { default_config with dry_run := false } c4_ok_state 7200 "default").1 :=
  (C4_dry_run_refinement default_config c4_ok_state 7200 "default").2.2
    (by decide) (by decide)

/-- C5 (amended): in live mode every candidate is attempted — a failure on one
resource does not block the remaining deletions — and the returned counts are
exactly the number of delete calls that succeeded (in dry-run, all
candidates).  A delete answered by a 404 because the resource already
disappeared counts as a failure, not as a successful no-op (see the
counterexample). -/
theorem C5_executor_counts (cfg : Config) (st : ClusterState) (now : Int)
    (ns : String) (h : cfg.dry_run = false) :
    (cleanup_namespace cfg st now ns).1.secrets_deleted =
      (get_unused_resources cfg st now ns).secrets.countP
        (fun n => exceptIsOk (st.delete_secret ns n)) ∧
    (cleanup_namespace cfg st now ns).1.configmaps_deleted =
      (get_unused_resources cfg st now ns).configmaps.countP
        (fun n => exceptIsOk (st.delete_config_map ns n)) ∧
    (cleanup_namespace cfg st now ns).2 =
      (get_unused_resources cfg st now ns).secrets.map (DeleteCall.secret ns) ++
        (get_unused_resources cfg st now ns).configmaps.map (DeleteCall.configmap ns) := by
  simp [cleanup_namespace, delete_loop_eq, h]

/-- A cluster whose only candidate secret has already disappeared at deletion
time: its delete call answers 404. -/
def c5_fail_state : ClusterState :=
  { pods := fun _ => .ok []
    deployments := fun _ => .ok []
    daemon_sets := fun _ => .ok []
    stateful_sets := fun _ => .ok []
    service_accounts := fun _ _ => .error { status := 404 }
    secrets := fun _ => .ok [{ name := "ghost-secret", creation_timestamp := 0, type := none }]
    configmaps := fun _ => .ok []
    delete_secret := fun _ _ => .error { status := 404 }
    delete_config_map := fun _ _ => .ok () }

/-- Counterexample to C5 as stated: the candidate disappeared before deletion
(the delete answers 404), yet the executor reports zero deleted secrets — the
404 is treated as a failure, not as a successful no-op deletion. -/
theorem C5_counterexample :
    (get_unused_resources default_config c5_fail_state 7200 "default").secrets =
        ["ghost-secret"] ∧
    c5_fail_state.delete_secret "default" "ghost-secret" = .error { status := 404 } ∧
    (cleanup_namespace default_config c5_fail_state 7200 "default").1.secrets_deleted = 0 := by
  refine ⟨by decide, rfl, by decide⟩

/-- A cluster with one old orphaned secret and configmap, deletes succeeding. -/
def c5_ok_state : ClusterState :=
  { pods := fun _ => .ok []
    deployments := fun _ => .ok []
    daemon_sets := fun _ => .ok []
    stateful_sets := fun _ => .ok []
    service_accounts := fun _ _ => .error { status := 404 }
    secrets := fun _ => .ok [{ name := "orphan-c", creation_timestamp := 0, type := none }]
    configmaps := fun _ => .ok [{ name := "orphan-d", creation_timestamp := 0 }]
    delete_secret := fun _ _ => .ok ()
    delete_config_map := fun _ _ => .ok () }

/-- Witness for C5 (amended), at a concrete cluster in live mode. -/
theorem C5_witness :
    (cleanup_namespace default_config c5_ok_state 7200 "default").1.secrets_deleted =
      (get_unused_resources default_config c5_ok_state 7200 "default").secrets.countP
        (fun n => exceptIsOk (c5_ok_state.delete_secret "default" n)) ∧
    (cleanup_namespace default_config c5_ok_state 7200 "default").1.configmaps_deleted =
      (get_unused_resources default_config c5_ok_state 7200 "default").configmaps.countP
        (fun n => exceptIsOk (c5_ok_state.delete_config_map "default" n)) ∧
    (cleanup_namespace default_config c5_ok_state 7200 "default").2 =
      (get_unused_resources default_config c5_ok_state 7200 "default").secrets.map
          (DeleteCall.secret "default") ++
        (get_unused_resources default_config c5_ok_state 7200 "default").configmaps.map
          (DeleteCall.configmap "default") :=
  C5_executor_counts default_config c5_ok_state 7200 "default" rfl

/-! ## Claims C6 - C7 -/

/-- C6 (amended): a failure listing one workload kind is caught — the cycle is
not aborted, the collector returns normally — and the reference set returned
is exactly the one accumulated from the kinds scanned before the failure:
already-collected references are never removed, but the kinds after the first
failing one are not scanned in that cycle. -/
theorem C6_listing_failure_partial_scan (st : ClusterState) (ns : String) :
    (∀ e, st.pods ns = .error e →
      get_resource_references st ns = { secrets := [], configmaps := [] }) ∧
    (∀ ps e, st.pods ns = .ok ps → st.deployments ns = .error e →
      get_resource_references st ns =
        ps.foldl (fun r p => extract_references_from_pod_spec st p r)
          { secrets := [], configmaps := [] }) ∧
    (∀ ps ds e, st.pods ns = .ok ps → st.deployments ns = .ok ds →
        st.daemon_sets ns = .error e →
      get_resource_references st ns =
        ds.foldl (fun r d =>
            match d with
            | some spec => extract_references_from_pod_spec st (some spec) r
            | none => r)
          (ps.foldl (fun r p => extract_references_from_pod_spec st p r)
            { secrets := [], configmaps := [] })) ∧
    (∀ ps ds dss e, st.pods ns = .ok ps → st.deployments ns = .ok ds →
        st.daemon_sets ns = .ok dss → st.stateful_sets ns = .error e →
      get_resource_references st ns =
        dss.foldl (fun r d =>
            match d with
            | some spec => extract_references_from_pod_spec st (some spec) r
            | none => r)
          (ds.foldl (fun r d =>
              match d with
              | some spec => extract_references_from_pod_spec st (some spec) r
              | none => r)
            (ps.foldl (fun r p => extract_references_from_pod_spec st p r)
              { secrets := [], configmaps := [] }))) := by
  refine ⟨?_, ?_, ?_, ?_⟩
  · intro e h
    unfold get_resource_references
    rw [h]
  · intro ps e h1 h2
    unfold get_resource_references
    rw [h1, h2]
  · intro ps ds e h1 h2 h3
    unfold get_resource_references
    rw [h1, h2, h3]
  · intro ps ds dss e h1 h2 h3 h4
    unfold get_resource_references
    rw [h1, h2, h3, h4]

/-- A pod spec mounting one secret volume. -/
def secret_volume_pod (sname : String) : PodSpec :=
  { volumes := some [{ secret := some { secret_name := sname },
                       config_map := none, projected := none }]
    containers := none
    init_containers := none
    ephemeral_containers := none
    image_pull_secrets := none
    service_account_name := none
    pod_namespace := none }

/-- A cluster where pods list fine (referencing `pod-secret`), the deployments
listing raises, and the daemonsets listing would succeed and reference
`ds-secret`. -/
def c6_state : ClusterState :=
  { pods := fun _ => .ok [some (secret_volume_pod "pod-secret")]
    deployments := fun _ => .error { status := 500 }
    daemon_sets := fun _ => .ok [some (secret_volume_pod "ds-secret")]
    stateful_sets := fun _ => .ok []
    service_accounts := fun _ _ => .error { status := 404 }
    secrets := fun _ => .ok []
    configmaps := fun _ => .ok []
    delete_secret := fun _ _ => .ok ()
    delete_config_map := fun _ _ => .ok () }

/-- Counterexample to C6 as stated: the daemonset listing succeeds and its
workload references `ds-secret`, yet after the deployments-listing failure the
returned reference set holds only the pod references — the set is not built
from every kind that succeeds, only from the kinds scanned before the
failure. -/
theorem C6_counterexample :
    c6_state.daemon_sets "ns1" = .ok [some (secret_volume_pod "ds-secret")] ∧
    (get_resource_references c6_state "ns1").secrets = ["pod-secret"] ∧
    "ds-secret" ∉ (get_resource_references c6_state "ns1").secrets := by
  refine ⟨rfl, by decide, by decide⟩

/-- Witness for C6 (amended): at the concrete cluster, the returned set is
exactly the fold over the pods scanned before the failure. -/
theorem C6_witness :
    get_resource_references c6_state "ns1" =
      [some (secret_volume_pod "pod-secret")].foldl
        (fun r p => extract_references_from_pod_spec c6_state p r)
        { secrets := [], configmaps := [] } :=
  (C6_listing_failure_partial_scan c6_state "ns1").2.1
    [some (secret_volume_pod "pod-secret")] { status := 500 } rfl rfl

/-- C7 (amended): the staleness cutoff is computed once per namespace — one
`get_unused_resources` call reads the clock once and classifies every
resource of that namespace against the single cutoff
`now - threshold * 3600`, never re-evaluating it per resource.  Across
namespaces within one cycle the clock is re-read, so different namespaces can
see different cutoffs (see the counterexample). -/
theorem C7_cutoff_once_per_namespc (cfg : Config) (st : ClusterState)
    (now : Int) (ns : String) :
    (∀ items s, st.secrets ns = .ok items → (items.map SecretObj.name).Nodup →
      s ∈ items →
      (s.name ∈ (get_unused_resources cfg st now ns).secrets ↔
        secret_adds cfg (get_resource_references st ns)
          (now - cfg.unused_threshold_hours * 3600) s = true)) ∧
    (∀ sItems cItems c, st.secrets ns = .ok sItems → st.configmaps ns = .ok cItems →
      (cItems.map ConfigMapObj.name).Nodup → c ∈ cItems →
      (c.name ∈ (get_unused_resources cfg st now ns).configmaps ↔
        configmap_adds cfg (get_resource_references st ns)
          (now - cfg.unused_threshold_hours * 3600) c = true)) := by
  constructor
  · intro items s hs hnd hmem
    rw [mem_unused_secrets_iff]
    constructor
    · rintro ⟨items2, hs2, s2, hmem2, hname, hadds⟩
      rw [hs] at hs2
      obtain rfl : items = items2 := (Except.ok.injEq _ _).mp hs2
      obtain rfl : s2 = s := List.inj_on_of_nodup_map hnd hmem2 hmem hname
      exact hadds
    · intro hadds
      exact ⟨items, hs, s, hmem, rfl, hadds⟩
  · intro sItems cItems c hs hc hnd hmem
    rw [mem_unused_configmaps_iff]
    constructor
    · rintro ⟨-, cms2, hc2, c2, hmem2, hname, hadds⟩
      rw [hc] at hc2
      obtain rfl : cItems = cms2 := (Except.ok.injEq _ _).mp hc2
      obtain rfl : c2 = c := List.inj_on_of_nodup_map hnd hmem2 hmem hname
      exact hadds
    · intro hadds
      exact ⟨⟨sItems, hs⟩, cItems, hc, c, hmem, rfl, hadds⟩

/-- A cluster where every namespace holds the same configmap created at
t = 50s. -/
def c7_state : ClusterState :=
  { pods := fun _ => .ok []
    deployments := fun _ => .ok []
    daemon_sets := fun _ => .ok []
    stateful_sets := fun _ => .ok []
    service_accounts := fun _ _ => .error { status := 404 }
    secrets := fun _ => .ok []
    configmaps := fun _ => .ok [{ name := "app-cache", creation_timestamp := 50 }]
    delete_secret := fun _ _ => .ok ()
    delete_config_map := fun _ _ => .ok () }

/-- A two-namespace dry-run configuration. -/
def c7_config : Config :=
  { default_config with namespaces := ["ns1", "ns2"], dry_run := true }

/-- The wall clock read at the start of each namespace's classification:
3700s for ns1, 3650s for ns2 (it advances between the calls). -/
def c7_nows : Nat → Int :=
  fun i => if i == 0 then 3700 else 3650

/-- Counterexample to C7 as stated: within one cycle, the identical configmap
(same name, same timestamp) is classified a candidate in ns1 but not in ns2,
because each namespace's `get_unused_resources` call re-reads the clock and
computes its own cutoff — there is no single per-cycle cutoff. -/
theorem C7_counterexample :
    (get_unused_resources c7_config c7_state (c7_nows 0) "ns1").configmaps =
        ["app-cache"] ∧
    (get_unused_resources c7_config c7_state (c7_nows 1) "ns2").configmaps = [] ∧
    (perform_cleanup c7_config c7_state c7_nows).1 =
      { secrets_deleted := 0, configmaps_deleted := 1 } := by
  refine ⟨by decide, by decide, by decide⟩

/-- Witness for C7 (amended), at a concrete cluster and namespace. -/
theorem C7_witness :
    "app-cache" ∈ (get_unused_resources c7_config c7_state 3700 "ns1").configmaps ↔
      configmap_adds c7_config (get_resource_references c7_state "ns1")
        (3700 - c7_config.unused_threshold_hours * 3600)
        { name := "app-cache", creation_timestamp := 50 } = true :=
  (C7_cutoff_once_per_namespc c7_config c7_state 3700 "ns1").2
    [] [{ name := "app-cache", creation_timestamp := 50 }]
    { name := "app-cache", creation_timestamp := 50 }
    rfl rfl (by decide) (by decide)

/-! ## Claim C8: the manual-trigger handler -/

/-- The metadata of the configuration ConfigMap as passed to or read by the
handler (`metadata.annotations` may be absent/null). -/
structure CMMeta where
  annots : Option (List (String × String))
deriving DecidableEq, Repr

/-- Lookup in an annotation dictionary. -/
def lookupAnnot (l : List (String × String)) (k : String) : Option String :=
  (l.find? (fun p => p.1 == k)).map (fun p => p.2)

/-- One observable action of `manual_trigger_handler`. -/
inductive TriggerEvent where
  | cleanupCycle
  | patchIssued
  | removalFailureLogged
deriving DecidableEq, Repr

/-- `manual_trigger_handler`: on an update of the configuration object whose
trigger annotation equals `now`, run one cleanup cycle, then best-effort
remove the annotation: read the ConfigMap back, and if its annotation dict is
truthy, pop the key and issue the patch; any exception in that block is
caught and logged (`removalFailureLogged`).  `read_cm` and `patch_result` are
the outcomes of the two API calls of the removal block. -/
def manual_trigger_handler (new : CMMeta) (read_cm : Except ApiError CMMeta)
    (patch_result : Except ApiError Unit) : List TriggerEvent :=
  let annots := new.annots.getD []
  if lookupAnnot annots "cleanup.operator/trigger" == some "now" then
    [TriggerEvent.cleanupCycle] ++
      (match read_cm with
       | .error _ => [TriggerEvent.removalFailureLogged]
       | .ok cm =>
         match cm.annots with
         | none => []
         | some l =>
           if l.isEmpty then []
           else
             match patch_result with
             | .ok _ => [TriggerEvent.patchIssued]
             | .error _ => [TriggerEvent.patchIssued, TriggerEvent.removalFailureLogged])
  else []

/-- C8: for every update where the trigger annotation equals `now`, exactly
one cleanup cycle runs; the removal patch is issued only after the cycle
completes (the cycle is the first event of the trace); and removal is
best-effort: a failing read leaves the trace at one logged failure after the
cycle, and a failing patch logs the failure after the issued patch — neither
is fatal and neither changes the number of cycles run. -/
theorem C8_manual_trigger (new : CMMeta) (read_cm : Except ApiError CMMeta)
    (patch_result : Except ApiError Unit)
    (h : lookupAnnot (new.annots.getD []) "cleanup.operator/trigger" = some "now") :
    (manual_trigger_handler new read_cm patch_result).count TriggerEvent.cleanupCycle = 1 ∧
    (manual_trigger_handler new read_cm patch_result).head? =
      some TriggerEvent.cleanupCycle ∧
    (∀ i, (manual_trigger_handler new read_cm patch_result).get? i =
        some TriggerEvent.patchIssued → 0 < i) ∧
    (∀ e, read_cm = .error e →
      manual_trigger_handler new read_cm patch_result =
        [TriggerEvent.cleanupCycle, TriggerEvent.removalFailureLogged]) ∧
    (∀ cm l e, read_cm = .ok cm → cm.annots = some l → l ≠ [] →
      patch_result = .error e →
      manual_trigger_handler new read_cm patch_result =
        [TriggerEvent.cleanupCycle, TriggerEvent.patchIssued,
          TriggerEvent.removalFailureLogged]) := by
  cases read_cm with
  | error e =>
    have htr : manual_trigger_handler new (.error e) patch_result =
        [TriggerEvent.cleanupCycle, TriggerEvent.removalFailureLogged] := by
      simp [manual_trigger_handler, h]
    rw [htr]
    refine ⟨by decide, rfl, ?_, fun e2 h2 => rfl, ?_⟩
    · intro i hi
      cases i with
      | zero => simp at hi
      | succ n => omega
    · intro cm l e2 hcm
      exact absurd hcm (by simp)
  | ok cm =>
    cases hann : cm.annots with
    | none =>
      have htr : manual_trigger_handler new (.ok cm) patch_result =
          [TriggerEvent.cleanupCycle] := by
        simp [manual_trigger_handler, h, hann]
      rw [htr]
      refine ⟨by decide, rfl, ?_, fun e2 h2 => absurd h2 (by simp), ?_⟩
      · intro i hi
        cases i with
        | zero => simp at hi
        | succ n => omega
      · intro cm2 l e2 hcm hl hne
        obtain rfl : cm = cm2 := (Except.ok.injEq _ _).mp hcm
        rw [hann] at hl
        exact absurd hl (by simp)
    | some l =>
      cases l with
      | nil =>
        have htr : manual_trigger_handler new (.ok cm) patch_result =
            [TriggerEvent.cleanupCycle] := by
          simp [manual_trigger_handler, h, hann]
        rw [htr]
        refine ⟨by decide, rfl, ?_, fun e2 h2 => absurd h2 (by simp), ?_⟩
        · intro i hi
          cases i with
          | zero => simp at hi
          | succ n => omega
        · intro cm2 l2 e2 hcm hl hne
          obtain rfl : cm = cm2 := (Except.ok.injEq _ _).mp hcm
          rw [hann] at hl
          injection hl with hl2
          exact absurd hl2.symm hne
      | cons a t =>
        cases patch_result with
        | ok v =>
          have htr : manual_trigger_handler new (.ok cm) (.ok v) =
              [TriggerEvent.cleanupCycle, TriggerEvent.patchIssued] := by
            simp [manual_trigger_handler, h, hann]
          rw [htr]
          refine ⟨by decide, rfl, ?_, fun e2 h2 => absurd h2 (by simp), ?_⟩
          · intro i hi
            cases i with
            | zero => simp at hi
            | succ n => omega
          · intro cm2 l2 e2 hcm hl hne hp
            exact absurd hp (by simp)
        | error e =>
          have htr : manual_trigger_handler new (.ok cm) (.error e) =
              [TriggerEvent.cleanupCycle, TriggerEvent.patchIssued,
                TriggerEvent.removalFailureLogged] := by
            simp [manual_trigger_handler, h, hann]
          rw [htr]
          refine ⟨by decide, rfl, ?_,
            fun e2 h2 => absurd h2 (by simp),
            fun cm2 l2 e2 hcm hl hne hp => rfl⟩
          intro i hi
          cases i with
          | zero => simp at hi
          | succ n => omega

/-- The configuration object carrying the trigger annotation. -/
def c8_new : CMMeta :=
  { annots := some [("cleanup.operator/trigger", "now")] }

/-- Witness for C8: concrete trigger update whose removal patch fails — the
cycle runs first, the patch is issued after it, and the failure is logged. -/
theorem C8_witness :
    manual_trigger_handler c8_new (.ok c8_new) (.error { status := 500 }) =
      [TriggerEvent.cleanupCycle, TriggerEvent.patchIssued,
        TriggerEvent.removalFailureLogged] :=
  (C8_manual_trigger c8_new (.ok c8_new) (.error { status := 500 })
      (by decide)).2.2.2.2 c8_new [("cleanup.operator/trigger", "now")]
    { status := 500 } rfl rfl (by decide) rfl

/-! ## Claim C9: listing failures during classification -/

/-- C9: if the Secrets listing fails during classification, both candidate
lists are empty (so the executor deletes nothing in that namespace for that
cycle); if the ConfigMaps listing fails, the secret candidates accumulated
before the failure are returned with an empty configmap list.
`get_unused_resources` returns normally in both cases instead of raising. -/
theorem C9_partial_candidates_on_failure (cfg : Config) (st : ClusterState)
    (now : Int) (ns : String) :
    (∀ e, st.secrets ns = .error e →
      get_unused_resources cfg st now ns = { secrets := [], configmaps := [] } ∧
      cleanup_namespace cfg st now ns =
        ({ secrets_deleted := 0, configmaps_deleted := 0 }, [])) ∧
    (∀ items e, st.secrets ns = .ok items → st.configmaps ns = .error e →
      get_unused_resources cfg st now ns =
        { secrets := items.foldl
            (secret_step cfg (get_resource_references st ns)
              (now - cfg.unused_threshold_hours * 3600)) []
          configmaps := [] }) := by
  constructor
  · intro e h
    have hu : get_unused_resources cfg st now ns = { secrets := [], configmaps := [] } := by
      unfold get_unused_resources
      rw [h]
    refine ⟨hu, ?_⟩
    unfold cleanup_namespace
    rw [hu]
    rfl
  · intro items e h1 h2
    unfold get_unused_resources
    rw [h1, h2]

/-- A cluster whose Secrets listing raises. -/
def c9_state_a : ClusterState :=
  { pods := fun _ => .ok []
    deployments := fun _ => .ok []
    daemon_sets := fun _ => .ok []
    stateful_sets := fun _ => .ok []
    service_accounts := fun _ _ => .error { status := 404 }
    secrets := fun _ => .error { status := 503 }
    configmaps := fun _ => .ok [{ name := "orphan-f", creation_timestamp := 0 }]
    delete_secret := fun _ _ => .ok ()
    delete_config_map := fun _ _ => .ok () }

/-- A cluster whose ConfigMaps listing raises after the Secrets are listed. -/
def c9_state_b : ClusterState :=
  { pods := fun _ => .ok []
    deployments := fun _ => .ok []
    daemon_sets := fun _ => .ok []
    stateful_sets := fun _ => .ok []
    service_accounts := fun _ _ => .error { status := 404 }
    secrets := fun _ => .ok [{ name := "orphan-g", creation_timestamp := 0, type := none }]
    configmaps := fun _ => .error { status := 503 }
    delete_secret := fun _ _ => .ok ()
    delete_config_map := fun _ _ => .ok () }

/-- Witness for C9: the failing Secrets listing yields empty candidates and
no deletions, the failing ConfigMaps listing keeps the secret candidates. -/
theorem C9_witness :
    (get_unused_resources default_config c9_state_a 7200 "default" =
        { secrets := [], configmaps := [] } ∧
      cleanup_namespace default_config c9_state_a 7200 "default" =
        ({ secrets_deleted := 0, configmaps_deleted := 0 }, [])) ∧
    get_unused_resources default_config c9_state_b 7200 "default" =
      { secrets := [{ name := "orphan-g", creation_timestamp := 0, type := none }].foldl
          (secret_step default_config (get_resource_references c9_state_b "default")
            (7200 - default_config.unused_threshold_hours * 3600)) []
        configmaps := [] } :=
  ⟨(C9_partial_candidates_on_failure default_config c9_state_a 7200 "default").1
      { status := 503 } rfl,
   (C9_partial_candidates_on_failure default_config c9_state_b 7200 "default").2
      [{ name := "orphan-g", creation_timestamp := 0, type := none }]
      { status := 503 } rfl rfl⟩

/-! ## Claim C10: configuration loading -/

/-- A value of the configuration dictionary. -/
inductive ConfigValue where
  | str (s : String)
  | int (n : Int)
  | boolV (b : Bool)
  | strList (l : List String)
deriving DecidableEq, Repr

/-- The Python `CONFIG` dictionary: an insertion-ordered map with unique
keys. -/
abbrev PyDict := List (String × ConfigValue)

/-- `d[k] = v` on a Python dict: replace the existing entry or append. -/
def dictSet : PyDict → String → ConfigValue → PyDict
  | [], k, v => [(k, v)]
  | p :: rest, k, v => if p.1 == k then (k, v) :: rest else p :: dictSet rest k v

/-- `d.update(doc)`: set every entry of `doc`, in order. -/
def dictUpdate (d doc : PyDict) : PyDict :=
  doc.foldl (fun d p => dictSet d p.1 p.2) d

/-- `d.get(k)`. -/
def dictGet : PyDict → String → Option ConfigValue
  | [], _ => none
  | p :: rest, k => if p.1 == k then some p.2 else dictGet rest k

/-- The initial `CONFIG` dict of the module. -/
def default_config_dict : PyDict :=
  [("namespaces", ConfigValue.strList ["default"]),
   ("cleanup_interval", ConfigValue.int 3600),
   ("unused_threshold_hours", ConfigValue.int 1),
   ("dry_run", ConfigValue.boolV false),
   ("exclude_patterns", ConfigValue.strList ["kube-*", "default-token-*"])]

/-- The environment-variable overrides as read by `load_config`:
`CLEANUP_NAMESPACES` raw, `CLEANUP_INTERVAL` already parsed by `int(...)`,
`DRY_RUN` raw. -/
structure EnvOverrides where
  cleanup_namespaces : Option String
  cleanup_interval : Option Int
  dry_run : Option String
deriving DecidableEq, Repr

/-- Split a character list at each comma. -/
def splitCommaChars : List Char → List (List Char)
  | [] => [[]]
  | ',' :: rest => [] :: splitCommaChars rest
  | c :: rest =>
    match splitCommaChars rest with
    | [] => [[c]]
    | g :: gs => (c :: g) :: gs

/-- Python `s.split(',')`. -/
def splitComma (s : String) : List String :=
  (splitCommaChars s.data).map (fun l => String.mk l)

/-- Python `s.strip()`. -/
def pyStrip (s : String) : String :=
  String.mk (((s.data.dropWhile Char.isWhitespace).reverse.dropWhile
    Char.isWhitespace).reverse)

/-- Python `s.lower()` (ASCII). -/
def pyLower (s : String) : String :=
  String.mk (s.data.map Char.toLower)

/-- The environment-variable override block of `load_config`: each variable,
when present, overwrites its configuration key. -/
def apply_env_overrides (config : PyDict) (env : EnvOverrides) : PyDict :=
  let config := match env.cleanup_namespaces with
    | some raw => dictSet config "namespaces"
        (ConfigValue.strList ((splitComma raw).map pyStrip))
    | none => config
  let config := match env.cleanup_interval with
    | some n => dictSet config "cleanup_interval" (ConfigValue.int n)
    | none => config
  match env.dry_run with
  | some raw => dictSet config "dry_run" (ConfigValue.boolV (pyLower raw == "true"))
  | none => config

/-- `load_config`: merge the ConfigMap document into the existing
configuration with `CONFIG.update(...)`, then apply the environment
overrides.  `config_map_doc` is `none` when the ConfigMap is missing or has
no `config.yaml` key (then only the overrides apply).  The enclosing
`except Exception` of the source catches errors this total model cannot
raise. -/
def load_config (config : PyDict) (config_map_doc : Option PyDict)
    (env : EnvOverrides) : PyDict :=
  apply_env_overrides
    (match config_map_doc with
     | some doc => dictUpdate config doc
     | none => config) env

lemma dictGet_dictSet_self (d : PyDict) (k : String) (v : ConfigValue) :
    dictGet (dictSet d k v) k = some v := by
  induction d with
  | nil => simp [dictSet, dictGet]
  | cons p rest ih =>
    unfold dictSet
    cases hp : p.1 == k with
    | true => simp [dictGet]
    | false => simp [dictGet, hp, ih]

lemma dictGet_dictSet_ne (d : PyDict) (k k2 : String) (v : ConfigValue)
    (h : k2 ≠ k) : dictGet (dictSet d k2 v) k = dictGet d k := by
  induction d with
  | nil => simp [dictSet, dictGet, h]
  | cons p rest ih =>
    unfold dictSet
    cases hp : p.1 == k2 with
    | true =>
      have hp2 : p.1 = k2 := by simpa using hp
      simp [dictGet, h, hp2]
    | false => simp [dictGet, hp, ih]

lemma dictGet_dictSet_isSome (d : PyDict) (k k2 : String) (v : ConfigValue)
    (h : (dictGet d k).isSome = true) :
    (dictGet (dictSet d k2 v) k).isSome = true := by
  by_cases hk : k2 = k
  · subst hk
    rw [dictGet_dictSet_self]
    rfl
  · rw [dictGet_dictSet_ne d k k2 v hk]
    exact h

lemma dictGet_dictUpdate_not_mem (d doc : PyDict) (k : String)
    (h : ∀ p ∈ doc, p.1 ≠ k) : dictGet (dictUpdate d doc) k = dictGet d k := by
  induction doc generalizing d with
  | nil => rfl
  | cons p rest ih =>
    show dictGet (dictUpdate (dictSet d p.1 p.2) rest) k = dictGet d k
    rw [ih (dictSet d p.1 p.2) (fun q hq => h q (List.mem_cons_of_mem p hq)),
      dictGet_dictSet_ne d k p.1 p.2 (h p (List.mem_cons_self p rest))]

lemma dictGet_dictUpdate_isSome (d doc : PyDict) (k : String)
    (h : (dictGet d k).isSome = true) :
    (dictGet (dictUpdate d doc) k).isSome = true := by
  induction doc generalizing d with
  | nil => exact h
  | cons p rest ih =>
    show (dictGet (dictUpdate (dictSet d p.1 p.2) rest) k).isSome = true
    exact ih (dictSet d p.1 p.2) (dictGet_dictSet_isSome d k p.1 p.2 h)

lemma apply_env_overrides_preserves (config : PyDict) (env : EnvOverrides)
    (k : String)
    (h1 : k = "namespaces" → env.cleanup_namespaces = none)
    (h2 : k = "cleanup_interval" → env.cleanup_interval = none)
    (h3 : k = "dry_run" → env.dry_run = none) :
    dictGet (apply_env_overrides config env) k = dictGet config k := by
  unfold apply_env_overrides
  cases he3 : env.dry_run with
  | some raw =>
    have hk3 : "dry_run" ≠ k := by
      intro hk
      rw [h3 hk.symm] at he3
      exact Option.noConfusion he3
    rw [dictGet_dictSet_ne _ k "dry_run" _ hk3]
    cases he2 : env.cleanup_interval with
    | some n =>
      have hk2 : "cleanup_interval" ≠ k := by
        intro hk
        rw [h2 hk.symm] at he2
        exact Option.noConfusion he2
      rw [dictGet_dictSet_ne _ k "cleanup_interval" _ hk2]
      cases he1 : env.cleanup_namespaces with
      | some raw1 =>
        have hk1 : "namespaces" ≠ k := by
          intro hk
          rw [h1 hk.symm] at he1
          exact Option.noConfusion he1
        exact dictGet_dictSet_ne _ k "namespaces" _ hk1
      | none => rfl
    | none =>
      cases he1 : env.cleanup_namespaces with
      | some raw1 =>
        have hk1 : "namespaces" ≠ k := by
          intro hk
          rw [h1 hk.symm] at he1
          exact Option.noConfusion he1
        exact dictGet_dictSet_ne _ k "namespaces" _ hk1
      | none => rfl
  | none =>
    cases he2 : env.cleanup_interval with
    | some n =>
      have hk2 : "cleanup_interval" ≠ k := by
        intro hk
        rw [h2 hk.symm] at he2
        exact Option.noConfusion he2
      rw [dictGet_dictSet_ne _ k "cleanup_interval" _ hk2]
      cases he1 : env.cleanup_namespaces with
      | some raw1 =>
        have hk1 : "namespaces" ≠ k := by
          intro hk
          rw [h1 hk.symm] at he1
          exact Option.noConfusion he1
        exact dictGet_dictSet_ne _ k "namespaces" _ hk1
      | none => rfl
    | none =>
      cases he1 : env.cleanup_namespaces with
      | some raw1 =>
        have hk1 : "namespaces" ≠ k := by
          intro hk
          rw [h1 hk.symm] at he1
          exact Option.noConfusion he1
        exact dictGet_dictSet_ne _ k "namespaces" _ hk1
      | none => rfl

lemma apply_env_overrides_isSome (config : PyDict) (env : EnvOverrides)
    (k : String) (h : (dictGet config k).isSome = true) :
    (dictGet (apply_env_overrides config env) k).isSome = true := by
  unfold apply_env_overrides
  cases hd : env.dry_run <;> cases hi : env.cleanup_interval <;>
      cases hn : env.cleanup_namespaces <;>
    first
      | exact h
      | exact dictGet_dictSet_isSome _ _ _ _ h
      | exact dictGet_dictSet_isSome _ _ _ _ (dictGet_dictSet_isSome _ _ _ _ h)
      | exact dictGet_dictSet_isSome _ _ _ _
          (dictGet_dictSet_isSome _ _ _ _ (dictGet_dictSet_isSome _ _ _ _ h))

/-- C10: a configuration reload merges the loaded document into the existing
configuration in place (a dict update) rather than replacing it: every option
absent from the loaded `config.yaml` (and not overridden by an environment
variable) keeps its previous value, and every key of the previous
configuration is still present after a reload. -/
theorem C10_reload_merges_in_place (config : PyDict) (doc : PyDict)
    (env : EnvOverrides) (k : String) :
    ((∀ p ∈ doc, p.1 ≠ k) →
      (k = "namespaces" → env.cleanup_namespaces = none) →
      (k = "cleanup_interval" → env.cleanup_interval = none) →
      (k = "dry_run" → env.dry_run = none) →
      dictGet (load_config config (some doc) env) k = dictGet config k) ∧
    ((dictGet config k).isSome = true →
      (dictGet (load_config config (some doc) env) k).isSome = true) := by
  constructor
  · intro hdoc h1 h2 h3
    unfold load_config
    rw [apply_env_overrides_preserves _ env k h1 h2 h3]
    exact dictGet_dictUpdate_not_mem config doc k hdoc
  · intro hsome
    unfold load_config
    exact apply_env_overrides_isSome _ env k
      (dictGet_dictUpdate_isSome config doc k hsome)

/-- The reloaded document used by the C10 witness: it only sets `dry_run`. -/
def c10_doc : PyDict := [("dry_run", ConfigValue.boolV true)]

/-- Witness for C10: reloading a document that only sets `dry_run` keeps the
previous `namespaces` value and keeps the `exclude_patterns` key present. -/
theorem C10_witness :
    dictGet (load_config default_config_dict (some c10_doc)
        { cleanup_namespaces := none, cleanup_interval := none, dry_run := none })
      "namespaces" = dictGet default_config_dict "namespaces" ∧
    (dictGet (load_config default_config_dict (some c10_doc)
        { cleanup_namespaces := none, cleanup_interval := none, dry_run := none })
      "exclude_patterns").isSome = true :=
  ⟨(C10_reload_merges_in_place default_config_dict c10_doc
      { cleanup_namespaces := none, cleanup_interval := none, dry_run := none }
      "namespaces").1 (by decide) (fun _ => rfl) (fun _ => rfl) (fun _ => rfl),
   (C10_reload_merges_in_place default_config_dict c10_doc
      { cleanup_namespaces := none, cleanup_interval := none, dry_run := none }
      "exclude_patterns").2 (by decide)⟩
